import Mathlib

/-!
Shallow embedding of the prosodify-backend data-access layer
(lib/database.ts): the retry executor `withRetry`, the user and
audio-file repositories, and the usage-quota engine.  SQL effects are
modelled as pure functions over an in-memory list of rows; DATETIME2
values are modelled at day granularity (the only date computation in the
source, T-SQL DATEDIFF(month, ..), ignores day and time entirely, and
the spec's calendar-month boundary is a matter of days).  JavaScript
falsy coercions (`x || y`, `x ? a : b`) are modelled explicitly.
-/

namespace Prosodify

/-- Calendar date standing for a SQL DATETIME2 value, at day granularity. -/
structure SqlDate where
  year : Nat
  month : Nat
  day : Nat
deriving DecidableEq

/-- T-SQL DATEDIFF(month, a, b): the count of month boundaries crossed
between a and b; days and time of day are ignored. -/
def datediffMonth (a b : SqlDate) : Int :=
  ((b.year : Int) - (a.year : Int)) * 12 + ((b.month : Int) - (a.month : Int))

/-- Gregorian leap-year test. -/
def isLeapYear (y : Nat) : Bool :=
  decide ((y % 4 = 0 ∧ y % 100 ≠ 0) ∨ y % 400 = 0)

/-- Number of days of month m in year y. -/
def daysInMonth (y m : Nat) : Nat :=
  if m = 2 then (if isLeapYear y then 29 else 28)
  else if m = 4 ∨ m = 6 ∨ m = 9 ∨ m = 11 then 30
  else 31

/-- Lexicographic order on calendar dates. -/
def dateLe (a b : SqlDate) : Bool :=
  decide (a.year < b.year ∨
    (a.year = b.year ∧ (a.month < b.month ∨
      (a.month = b.month ∧ a.day ≤ b.day))))

/-- The date one calendar month after d, with the day clamped to the
length of the target month (Jan 31 + 1 month = Feb 28/29). -/
def addOneMonth (d : SqlDate) : SqlDate :=
  let y := if d.month = 12 then d.year + 1 else d.year
  let m := if d.month = 12 then 1 else d.month + 1
  { year := y, month := m, day := min d.day (daysInMonth y m) }

/-- Modelled from the spec: "elapsed time since usageResetDate is ≥ one
calendar month" — at least one calendar month has elapsed between d and
now.  This is the spec-side due-for-reset predicate, to be compared
with the source's DATEDIFF-based condition. -/
def oneCalendarMonthElapsed (d now : SqlDate) : Bool :=
  dateLe (addOneMonth d) now

/-- Row of the users table (schema from initializeDatabase). -/
structure User where
  id : String
  email : String
  name : String
  password : String
  createdAt : SqlDate
  updatedAt : SqlDate
  last_login_at : Option SqlDate
  login_count : Option Int
  subscriptionStatus : String
  monthlyUsage : Int
  usageResetDate : SqlDate
deriving DecidableEq

/-- Row of the audio_files table (schema from initializeDatabase).
`settings` is kept as its opaque serialized text form. -/
structure AudioFile where
  id : String
  userId : String
  filename : String
  text : String
  voice : Option String
  settings : Option String
  audioUrl : Option String
  fileSize : Option Int
  createdAt : SqlDate
deriving DecidableEq

/-- A thrown database error, carrying its message string (the source
classifies errors purely by substrings of error.message). -/
structure DbErr where
  message : String
deriving DecidableEq

/-- Does the pattern occur at the head of the character list? -/
def charsBeginWith : List Char → List Char → Bool
  | [], _ => true
  | _ :: _, [] => false
  | p :: ps, c :: cs => p == c && charsBeginWith ps cs

/-- Does the pattern occur anywhere in the character list? -/
def charsContain (p : List Char) : List Char → Bool
  | [] => charsBeginWith p []
  | c :: cs => charsBeginWith p (c :: cs) || charsContain p cs

/-- JavaScript String.prototype.includes: substring containment. -/
def strContains (s pat : String) : Bool :=
  charsContain pat.toList s.toList

/-- The transient classification of withRetry: the pool singleton is
discarded when error.message includes ConnectionError, RequestError or
TimeoutError. -/
def isTransient (e : DbErr) : Bool :=
  strContains e.message "ConnectionError" ||
  strContains e.message "RequestError" ||
  strContains e.message "TimeoutError"

/-- One attempt of a retried operation: the attempt index (0-based)
determines its outcome.  Pool acquisition and query execution are folded
into the single outcome, as in the source both throw into the same
catch block. -/
def AttemptOutcome (T : Type) := Nat → Except DbErr T

/-- Loop body of withRetry.  `fuel` is the number of attempts the loop
may still make (maxRetries + 1 - retryCount); the fuel-0 case is the
source's unreachable final `throw new Error('Max retries exceeded')`.
Returns (result, total attempts made, number of pool discards); the
discard counter increments exactly when a failed attempt's error is
classified transient, modelling the `pool = null` assignment. -/
def withRetryGo {T : Type} (op : AttemptOutcome T) :
    Nat → Nat → Nat → Except DbErr T × Nat × Nat
  | 0, attempt, discards => (Except.error { message := "Max retries exceeded" }, attempt, discards)
  | fuel + 1, attempt, discards =>
    match op attempt with
    | Except.ok v => (Except.ok v, attempt + 1, discards)
    | Except.error e =>
      let discards' := if isTransient e then discards + 1 else discards
      if fuel = 0 then (Except.error e, attempt + 1, discards')
      else withRetryGo op fuel (attempt + 1) discards'

/-- withRetry(operation, maxRetries): run the operation until it
succeeds or maxRetries + 1 attempts have failed; the source's default
for maxRetries is 2. -/
def withRetryRun {T : Type} (op : AttemptOutcome T) (maxRetries : Nat) :
    Except DbErr T × Nat × Nat :=
  withRetryGo op (maxRetries + 1) 0 0

/-- JavaScript lowercasing of an ASCII character (the model of
String.prototype.toLowerCase restricted to the ASCII range). -/
def charLower (c : Char) : Char :=
  if 'A' ≤ c ∧ c ≤ 'Z' then Char.ofNat (c.toNat + 32) else c

/-- JavaScript String.prototype.toLowerCase, modelled on ASCII text. -/
def lowerString (s : String) : String :=
  String.mk (s.data.map charLower)

/-- createUser(user): INSERT INTO users (id, email, name, password);
the remaining columns take their schema defaults.  The UNIQUE
constraint on email and the PRIMARY KEY on id surface as a constraint
violation error.  The inserted email is the caller's string verbatim —
no case folding happens on insert. -/
def createUser (db : List User) (now : SqlDate)
    (id email name password : String) : Except DbErr (List User) :=
  if db.any (fun u => u.id == id || u.email == email) then
    Except.error { message := "Violation of UNIQUE KEY constraint" }
  else
    Except.ok (db ++ [{
      id := id, email := email, name := name,
      password := password, createdAt := now, updatedAt := now,
      last_login_at := none, login_count := some 0,
      subscriptionStatus := "free", monthlyUsage := 0,
      usageResetDate := now }])

/-- findUserByEmail(email): the parameter is lowercased
(email.toLowerCase()) and compared against the stored email column;
recordset[0] || null becomes the first matching row or none. -/
def findUserByEmail (db : List User) (email : String) : Option User :=
  db.find? (fun u => u.email == lowerString email)

/-- findUserById(id): SELECT * FROM users WHERE id = @id. -/
def findUserById (db : List User) (id : String) : Option User :=
  db.find? (fun u => u.id == id)

/-- getUserWithSubscription(userId): a projection of the user row; the
model returns the whole row (all projected fields are present). -/
def getUserWithSubscription (db : List User) (userId : String) : Option User :=
  db.find? (fun u => u.id == userId)

/-- The fixed tier-limits object of canUserUseCharacters and
getUserDashboard; property lookup on a key other than free, pro or
premium yields undefined (none). -/
def limitsLookup (s : String) : Option Int :=
  if s = "free" then some 5000
  else if s = "pro" then some 100000
  else if s = "premium" then some 500000
  else none

/-- JavaScript `v || d` on a possibly-undefined number: undefined and 0
are falsy and fall through to the default. -/
def jsOrIntDefault (v : Option Int) (d : Int) : Int :=
  match v with
  | none => d
  | some x => if x = 0 then d else x

/-- The userLimit computation `limits[status] || 5000`. -/
def userLimitFor (s : String) : Int :=
  jsOrIntDefault (limitsLookup s) 5000

/-- Return shape of canUserUseCharacters. -/
structure CanUseResult where
  canUse : Bool
  currentUsage : Int
  limit : Int
deriving DecidableEq

/-- canUserUseCharacters(userId, charactersNeeded): load the user; if
absent return all-zero refusal; otherwise compare monthlyUsage +
charactersNeeded against the tier limit. -/
def canUserUseCharacters (db : List User) (userId : String)
    (charactersNeeded : Int) : CanUseResult :=
  match getUserWithSubscription db userId with
  | none => { canUse := false, currentUsage := 0, limit := 0 }
  | some user =>
    let userLimit := userLimitFor user.subscriptionStatus
    { canUse := decide (user.monthlyUsage + charactersNeeded ≤ userLimit),
      currentUsage := user.monthlyUsage,
      limit := userLimit }

/-- updateUserUsage(userId, charactersUsed): UPDATE users SET
monthlyUsage = monthlyUsage + @charactersUsed WHERE id = @userId. -/
def updateUserUsage (db : List User) (userId : String)
    (charactersUsed : Int) : List User :=
  db.map (fun u =>
    if u.id == userId then { u with monthlyUsage := u.monthlyUsage + charactersUsed }
    else u)

/-- resetMonthlyUsage(): UPDATE users SET monthlyUsage = 0,
usageResetDate = GETDATE() WHERE DATEDIFF(month, usageResetDate,
GETDATE()) >= 1. -/
def resetMonthlyUsage (db : List User) (now : SqlDate) : List User :=
  db.map (fun u =>
    if 1 ≤ datediffMonth u.usageResetDate now then
      { u with monthlyUsage := 0, usageResetDate := now }
    else u)

/-- JavaScript `v || null` on a possibly-undefined string: undefined
and the empty string are falsy and become null. -/
def jsOrNullStr (v : Option String) : Option String :=
  match v with
  | none => none
  | some s => if s = "" then none else some s

/-- JavaScript `v || null` on a possibly-undefined number: undefined
and 0 are falsy and become null. -/
def jsOrNullInt (v : Option Int) : Option Int :=
  match v with
  | none => none
  | some n => if n = 0 then none else some n

/-- Input record of saveAudioFile; `settings` is carried in its opaque
serialized text form (no claim inspects its contents). -/
structure AudioData where
  userId : String
  filename : String
  text : String
  voice : Option String
  settings : Option String
  audioUrl : Option String
  fileSize : Option Int
deriving DecidableEq

/-- saveAudioFile(audioData): generate the audio id from the current
timestamp and a random suffix, coerce falsy optional fields to null,
insert the row, return the generated id.  The nondeterministic inputs
Date.now() and the random suffix are passed explicitly. -/
def saveAudioFile (db : List AudioFile) (data : AudioData)
    (timestamp : Nat) (randomSuffix : String) (now : SqlDate) :
    String × List AudioFile :=
  let audioId := "audio_" ++ toString timestamp ++ "_" ++ randomSuffix
  (audioId, db ++ [{
    id := audioId, userId := data.userId,
    filename := data.filename, text := data.text,
    voice := jsOrNullStr data.voice,
    settings := jsOrNullStr data.settings,
    audioUrl := jsOrNullStr data.audioUrl,
    fileSize := jsOrNullInt data.fileSize,
    createdAt := now }])

/-- Sort key for ORDER BY createdAt DESC at day granularity. -/
def dateKey (d : SqlDate) : Nat :=
  d.year * 10000 + d.month * 100 + d.day

/-- Insert one file into a list already sorted by createdAt descending. -/
def insertDescByCreated (x : AudioFile) : List AudioFile → List AudioFile
  | [] => [x]
  | y :: ys =>
    if dateKey y.createdAt ≤ dateKey x.createdAt then x :: y :: ys
    else y :: insertDescByCreated x ys

/-- Sort by createdAt descending (the model of ORDER BY createdAt DESC). -/
def sortDescByCreated : List AudioFile → List AudioFile
  | [] => []
  | x :: xs => insertDescByCreated x (sortDescByCreated xs)

/-- getUserAudioFiles(userId, limit): SELECT TOP (@limit) ... WHERE
userId = @userId ORDER BY createdAt DESC; the source's default limit
is 10. -/
def getUserAudioFiles (files : List AudioFile) (userId : String)
    (limit : Nat) : List AudioFile :=
  (sortDescByCreated (files.filter (fun f => f.userId == userId))).take limit

/-- JavaScript `v || d` on a possibly-undefined string: undefined and
the empty string fall through to the default. -/
def jsOrStrDefault (v : Option String) (d : String) : String :=
  match v with
  | none => d
  | some s => if s = "" then d else s

/-- user part of the dashboard read model; fields read through `user?.`
are undefined (none) when the user row is absent. -/
structure DashboardUser where
  id : Option String
  email : Option String
  name : Option String
  subscriptionStatus : String
  monthlyUsage : Int
  usageResetDate : Option SqlDate
deriving DecidableEq

/-- usage part of the dashboard read model. -/
structure DashboardUsage where
  current : Int
  limit : Int
  remaining : Int
deriving DecidableEq

/-- Return shape of getUserDashboard. -/
structure Dashboard where
  user : DashboardUser
  usage : DashboardUsage
  recentFiles : List AudioFile
deriving DecidableEq

/-- getUserDashboard(userId): compose getUserWithSubscription and
getUserAudioFiles(userId, 5); `user?.field` accesses become Option.map,
`limits[user?.subscriptionStatus] || 5000` and `user?.monthlyUsage || 0`
use the JavaScript falsy coercions; remaining = userLimit - current
with no clamping. -/
def getUserDashboard (db : List User) (files : List AudioFile)
    (userId : String) : Dashboard :=
  let user := getUserWithSubscription db userId
  let recentFiles := getUserAudioFiles files userId 5
  let userLimit := jsOrIntDefault
    (user.bind (fun u => limitsLookup u.subscriptionStatus)) 5000
  let current := jsOrIntDefault (user.map (fun u => u.monthlyUsage)) 0
  { user := {
      id := user.map (fun u => u.id),
      email := user.map (fun u => u.email),
      name := user.map (fun u => u.name),
      subscriptionStatus := jsOrStrDefault (user.map (fun u => u.subscriptionStatus)) "free",
      monthlyUsage := current,
      usageResetDate := user.map (fun u => u.usageResetDate) },
    usage := {
      current := current, limit := userLimit,
      remaining := userLimit - current },
    recentFiles := recentFiles }

/-! Concrete fixtures used by counterexamples and witnesses. -/

/-- Fixture date. -/
def scratchDate : SqlDate := { year := 2025, month := 1, day := 1 }

/-- Fixture free-tier user one character below the free limit. -/
def scratchUser : User := {
  id := "u1", email := "a@b.com", name := "Alice",
  password := "pw", createdAt := scratchDate, updatedAt := scratchDate,
  last_login_at := none, login_count := some 0, subscriptionStatus := "free",
  monthlyUsage := 4999, usageResetDate := scratchDate }

/-- Fixture operation whose first attempt fails with a unique-constraint
violation (a non-transient classification) and whose later attempts
succeed. -/
def c1Op : AttemptOutcome Nat := fun n =>
  if n = 0 then Except.error { message := "Violation of UNIQUE KEY constraint" }
  else Except.ok 42

/-- Fixture operation failing non-transiently on attempt 0 and
succeeding on attempt 1. -/
def c1aOp : AttemptOutcome Nat := fun n =>
  if n = 0 then Except.error { message := "Violation of PRIMARY KEY constraint" }
  else Except.ok 7

/-- Fixture operation failing on every attempt with a transient
classification. -/
def c2Op : AttemptOutcome Nat :=
  fun _ => Except.error { message := "ConnectionError: socket closed" }

/-- Fixture operation failing transiently on attempts 0 and 1 and
succeeding on attempt 2. -/
def c8Op : AttemptOutcome Nat := fun n =>
  if n = 0 then Except.error { message := "ConnectionError: reset" }
  else if n = 1 then Except.error { message := "TimeoutError: slow" }
  else Except.ok 99

/-- Fixture user whose last reset was January 15, 2025. -/
def c4User : User := {
  id := "u2", email := "b@b.com", name := "Bea", password := "pw",
  createdAt := scratchDate, updatedAt := scratchDate, last_login_at := none,
  login_count := some 0, subscriptionStatus := "free",
  monthlyUsage := 1234, usageResetDate := { year := 2025, month := 1, day := 15 } }

/-- Fixture clock one day short of a calendar month after c4User's
reset date. -/
def c4Now : SqlDate := { year := 2025, month := 2, day := 14 }

/-- Fixture user row as created by createUser with a mixed-case email. -/
def c6User : User := {
  id := "u1", email := "a@B.com", name := "Alice", password := "pw",
  createdAt := scratchDate, updatedAt := scratchDate, last_login_at := none,
  login_count := some 0, subscriptionStatus := "free", monthlyUsage := 0,
  usageResetDate := scratchDate }

/-- Fixture user row as created by createUser with an all-lowercase
email. -/
def c6LowUser : User := {
  id := "u1", email := "a@b.com", name := "Alice", password := "pw",
  createdAt := scratchDate, updatedAt := scratchDate, last_login_at := none,
  login_count := some 0, subscriptionStatus := "free", monthlyUsage := 0,
  usageResetDate := scratchDate }

/-- Fixture user with monthlyUsage 5. -/
def c7User : User := {
  id := "u1", email := "a@b.com", name := "Alice", password := "pw",
  createdAt := scratchDate, updatedAt := scratchDate, last_login_at := none,
  login_count := some 0, subscriptionStatus := "free",
  monthlyUsage := 5, usageResetDate := scratchDate }

/-- Fixture saveAudioFile input with falsy optional fields: fileSize 0
and empty-string voice. -/
def c9Data : AudioData := {
  userId := "u1", filename := "f.mp3", text := "hello",
  voice := some "", settings := none, audioUrl := none, fileSize := some 0 }

/-- Fixture premium user whose usage exceeds the premium limit. -/
def c10User : User := {
  id := "u3", email := "c@b.com", name := "Cy", password := "pw",
  createdAt := scratchDate, updatedAt := scratchDate, last_login_at := none,
  login_count := some 0, subscriptionStatus := "premium",
  monthlyUsage := 600000, usageResetDate := scratchDate }

/-! Theorems. -/

/-- Helper: when every attempt fails, a positive-fuel run of the retry
loop makes exactly fuel attempts and surfaces the error of the last
one. -/
theorem withRetryGo_allFail {T : Type} (op : AttemptOutcome T)
    (errs : Nat → DbErr) (h : ∀ i, op i = Except.error (errs i)) :
    ∀ fuel attempt discards, 0 < fuel →
      ∃ d, withRetryGo op fuel attempt discards =
        (Except.error (errs (attempt + fuel - 1)), attempt + fuel, d) := by
  intro fuel
  induction fuel with
  | zero => intro attempt discards hf; omega
  | succ f ih =>
    intro attempt discards _
    cases f with
    | zero =>
      refine ⟨if isTransient (errs attempt) then discards + 1 else discards, ?_⟩
      simp [withRetryGo, h attempt]
    | succ f2 =>
      obtain ⟨d, hd⟩ := ih (attempt + 1)
        (if isTransient (errs attempt) then discards + 1 else discards)
        (Nat.succ_pos _)
      refine ⟨d, ?_⟩
      have h1 : attempt + (f2 + 1 + 1) - 1 = (attempt + 1) + (f2 + 1) - 1 := by omega
      have h2 : attempt + (f2 + 1 + 1) = (attempt + 1) + (f2 + 1) := by omega
      rw [h1, h2]
      simpa [withRetryGo, h attempt] using hd

/-- Claim C2: when every attempt fails, withRetry makes exactly
maxRetries + 1 attempts and then raises the error produced by the final
attempt — never a different error, never more or fewer attempts. -/
theorem withRetry_all_attempts_fail {T : Type} (op : AttemptOutcome T)
    (errs : Nat → DbErr) (maxRetries : Nat)
    (h : ∀ i, op i = Except.error (errs i)) :
    ∃ discards, withRetryRun op maxRetries =
      (Except.error (errs maxRetries), maxRetries + 1, discards) := by
  obtain ⟨d, hd⟩ := withRetryGo_allFail op errs h (maxRetries + 1) 0 0 (Nat.succ_pos _)
  exact ⟨d, by simpa [withRetryRun] using hd⟩

/-- Claim C2 witness: with the default maxRetries = 2 and an operation
failing each of its attempts with the same error, the run makes 3
attempts and raises that error. -/
theorem withRetry_all_attempts_fail_witness :
    ∃ discards, withRetryRun c2Op 2 =
      (Except.error { message := "ConnectionError: socket closed" }, 3, discards) :=
  withRetry_all_attempts_fail c2Op
    (fun _ => { message := "ConnectionError: socket closed" }) 2 (fun _ => rfl)

/-- Claim C1 counterexample: an operation whose first attempt fails
with a unique-constraint violation — classified non-transient — is
nevertheless retried: with maxRetries = 2 the run returns the second
attempt's success value after 2 attempts, instead of propagating the
error after 1 attempt as the claim states, and discards no pool. -/
theorem withRetry_nontransient_retried_cex :
    isTransient { message := "Violation of UNIQUE KEY constraint" } = false ∧
    withRetryRun c1Op 2 = (Except.ok 42, 2, 0) :=
  ⟨by decide, by rfl⟩

/-- Claim C1 amended: withRetry retries every failure, transient or
not; the transient classification controls only whether the pool
singleton is discarded before the next attempt.  A non-transient first
failure is absorbed and the operation is attempted again without
discarding the pool. -/
theorem withRetry_nontransient_also_retried {T : Type} (op : AttemptOutcome T)
    (e : DbErr) (v : T) (maxRetries : Nat)
    (h0 : op 0 = Except.error e) (hnt : isTransient e = false)
    (h1 : op 1 = Except.ok v) (hmr : 1 ≤ maxRetries) :
    withRetryRun op maxRetries = (Except.ok v, 2, 0) := by
  obtain ⟨k, rfl⟩ : ∃ k, maxRetries = k + 1 := ⟨maxRetries - 1, by omega⟩
  simp [withRetryRun, withRetryGo, h0, h1, hnt]

/-- Claim C1 amended witness: a non-transient failure on attempt 0
followed by success on attempt 1, under the default maxRetries = 2. -/
theorem withRetry_nontransient_also_retried_witness :
    withRetryRun c1aOp 2 = (Except.ok 7, 2, 0) :=
  withRetry_nontransient_also_retried c1aOp
    { message := "Violation of PRIMARY KEY constraint" } 7 2 rfl (by decide) rfl
    (by decide)

/-- Claim C8: an operation failing with a transient classification on
attempts 1 and 2 and succeeding on attempt 3, run with 3 total
attempts, returns the success value immediately after the third
attempt, and the pool singleton is discarded exactly twice. -/
theorem withRetry_transient_then_success {T : Type} (op : AttemptOutcome T)
    (e0 e1 : DbErr) (v : T)
    (h0 : op 0 = Except.error e0) (h1 : op 1 = Except.error e1)
    (h2 : op 2 = Except.ok v)
    (ht0 : isTransient e0 = true) (ht1 : isTransient e1 = true) :
    withRetryRun op 2 = (Except.ok v, 3, 2) := by
  simp [withRetryRun, withRetryGo, h0, h1, h2, ht0, ht1]

/-- Claim C8 witness: two concrete transient failures followed by a
success. -/
theorem withRetry_transient_then_success_witness :
    withRetryRun c8Op 2 = (Except.ok 99, 3, 2) :=
  withRetry_transient_then_success c8Op { message := "ConnectionError: reset" }
    { message := "TimeoutError: slow" } 99 rfl rfl rfl (by decide) (by decide)

/-- Claim C3: for an existing user, canUserUseCharacters returns
canUse = (monthlyUsage + charactersNeeded ≤ limit of the tier) together
with the current usage and the limit, where the limit maps free to
5000, pro to 100000, premium to 500000 and any other tier string to
5000. -/
theorem canUserUseCharacters_existing (db : List User) (uid : String)
    (u : User) (needed : Int)
    (h : getUserWithSubscription db uid = some u) :
    canUserUseCharacters db uid needed = {
      canUse := decide (u.monthlyUsage + needed ≤ userLimitFor u.subscriptionStatus),
      currentUsage := u.monthlyUsage,
      limit := userLimitFor u.subscriptionStatus } ∧
    userLimitFor "free" = 5000 ∧ userLimitFor "pro" = 100000 ∧
    userLimitFor "premium" = 500000 ∧
    (∀ s, s ≠ "free" → s ≠ "pro" → s ≠ "premium" → userLimitFor s = 5000) := by
  refine ⟨?_, by decide, by decide, by decide, ?_⟩
  · simp [canUserUseCharacters, h]
  · intro s h1 h2 h3
    simp [userLimitFor, limitsLookup, jsOrIntDefault, h1, h2, h3]

/-- Claim C3 witness: the free-tier user at 4999 characters is refused
2 further characters and allowed 1, with currentUsage 4999 and limit
5000 reported. -/
theorem canUserUseCharacters_existing_witness :
    canUserUseCharacters [scratchUser] "u1" 2 = {
      canUse := decide ((4999 : Int) + 2 ≤ userLimitFor "free"),
      currentUsage := 4999,
      limit := userLimitFor "free" } ∧
    canUserUseCharacters [scratchUser] "u1" 2 = {
      canUse := false, currentUsage := 4999, limit := 5000 } ∧
    canUserUseCharacters [scratchUser] "u1" 1 = {
      canUse := true, currentUsage := 4999, limit := 5000 } :=
  ⟨(canUserUseCharacters_existing [scratchUser] "u1" scratchUser 2 rfl).1,
   by decide, by decide⟩

/-- Claim C5: for a userId matching no stored user,
canUserUseCharacters returns canUse = false with currentUsage 0 and
limit 0, for every charactersNeeded; being a total function, it raises
no error. -/
theorem canUserUseCharacters_missing_user (db : List User) (uid : String)
    (needed : Int) (h : getUserWithSubscription db uid = none) :
    canUserUseCharacters db uid needed =
      { canUse := false, currentUsage := 0, limit := 0 } := by
  simp [canUserUseCharacters, h]

/-- Claim C5 witness: a lookup of an absent id in a nonempty store. -/
theorem canUserUseCharacters_missing_user_witness :
    canUserUseCharacters [scratchUser] "ghost" 7 =
      { canUse := false, currentUsage := 0, limit := 0 } :=
  canUserUseCharacters_missing_user [scratchUser] "ghost" 7 (by decide)

/-- Claim C4 counterexample: a row whose usageResetDate is January 15,
2025 is one day short of a calendar month on February 14, 2025 —
oneCalendarMonthElapsed is false — yet resetMonthlyUsage zeroes its
monthlyUsage and restamps its usageResetDate, because
DATEDIFF(month, ..) counts crossed month boundaries, not elapsed
months. -/
theorem resetMonthlyUsage_boundary_cex :
    oneCalendarMonthElapsed c4User.usageResetDate c4Now = false ∧
    resetMonthlyUsage [c4User] c4Now =
      [{ c4User with monthlyUsage := 0, usageResetDate := c4Now }] :=
  ⟨by decide, by decide⟩

/-- Claim C4 amended: resetMonthlyUsage zeroes monthlyUsage and
restamps usageResetDate to now exactly for those rows whose
usageResetDate lies in an earlier calendar month than now
(DATEDIFF(month, usageResetDate, now) ≥ 1) — which can be satisfied
with less than a full month elapsed — and leaves every other row, and
all other fields of reset rows, unchanged. -/
theorem resetMonthlyUsage_datediff (db : List User) (now : SqlDate) :
    (resetMonthlyUsage db now).length = db.length ∧
    ∀ i : Fin db.length,
      (resetMonthlyUsage db now).get (Fin.cast (by simp [resetMonthlyUsage]) i) =
        (if 1 ≤ datediffMonth (db.get i).usageResetDate now
         then { db.get i with monthlyUsage := 0, usageResetDate := now }
         else db.get i) := by
  refine ⟨by simp [resetMonthlyUsage], ?_⟩
  intro i
  simp [resetMonthlyUsage, List.get_map]

/-- Claim C4 amended witness: the one-day-short row is reset and a
same-month row is untouched. -/
theorem resetMonthlyUsage_datediff_witness :
    (resetMonthlyUsage [c4User] c4Now).length = [c4User].length ∧
    ∀ i : Fin [c4User].length,
      (resetMonthlyUsage [c4User] c4Now).get
          (Fin.cast (by simp [resetMonthlyUsage]) i) =
        (if 1 ≤ datediffMonth ([c4User].get i).usageResetDate c4Now
         then { [c4User].get i with monthlyUsage := 0, usageResetDate := c4Now }
         else [c4User].get i) :=
  resetMonthlyUsage_datediff [c4User] c4Now

/-- Claim C6 counterexample: createUser stores the email verbatim while
findUserByEmail lowercases only the probe, so a user created with
a@B.com is found neither under A@b.COM nor under the original a@B.com
(SQL string equality modelled as exact comparison). -/
theorem findUserByEmail_case_cex :
    createUser [] scratchDate "u1" "a@B.com" "Alice" "pw" = Except.ok [c6User] ∧
    findUserByEmail [c6User] "A@b.COM" = none ∧
    findUserByEmail [c6User] "a@B.com" = none :=
  ⟨rfl, by decide, by decide⟩

/-- Claim C6 amended: only the lookup side is case-folded; the insert
stores the email verbatim.  The round trip therefore holds exactly for
probes whose lowercase form equals the stored email — in particular,
for every case variant when the user was created with an all-lowercase
email. -/
theorem findUserByEmail_folded_lookup (now : SqlDate)
    (id e name pw probe : String) (db1 : List User)
    (hc : createUser [] now id e name pw = Except.ok db1)
    (hprobe : lowerString probe = e) :
    findUserByEmail db1 probe = some {
      id := id, email := e, name := name, password := pw,
      createdAt := now, updatedAt := now, last_login_at := none,
      login_count := some 0, subscriptionStatus := "free",
      monthlyUsage := 0, usageResetDate := now } := by
  simp [createUser] at hc
  subst hc
  simp [findUserByEmail, hprobe]

/-- Claim C6 amended witness: a user created with the all-lowercase
a@b.com is found under the case variant A@b.COM. -/
theorem findUserByEmail_folded_lookup_witness :
    findUserByEmail [c6LowUser] "A@b.COM" = some c6LowUser :=
  findUserByEmail_folded_lookup scratchDate "u1" "a@b.com" "Alice" "pw"
    "A@b.COM" [c6LowUser] rfl (by decide)

/-- Claim C7 counterexample: updateUserUsage adds its argument
unconditionally, so the integer argument -3 decreases a monthlyUsage of
5 down to 2. -/
theorem updateUserUsage_negative_cex :
    updateUserUsage [c7User] "u1" (-3) = [{ c7User with monthlyUsage := 2 }] ∧
    ((2 : Int) < 5) :=
  ⟨by decide, by decide⟩

/-- Claim C7 amended: for every non-negative charactersUsed,
updateUserUsage leaves every row's monthlyUsage greater than or equal
to its previous value; a negative argument decreases it, since the
update adds the argument unconditionally. -/
theorem updateUserUsage_monotone (db : List User) (uid : String) (c : Int)
    (hc : 0 ≤ c) (i : Fin db.length) :
    (db.get i).monthlyUsage ≤
      ((updateUserUsage db uid c).get
        (Fin.cast (by simp [updateUserUsage]) i)).monthlyUsage := by
  simp [updateUserUsage, List.get_map]
  split
  · exact le_add_of_nonneg_right hc
  · exact le_refl _

/-- Claim C7 amended witness: adding 4 characters to the fixture user
does not decrease monthlyUsage. -/
theorem updateUserUsage_monotone_witness :
    ([c7User].get (⟨0, by decide⟩ : Fin [c7User].length)).monthlyUsage ≤
      ((updateUserUsage [c7User] "u1" 4).get
        (Fin.cast (by simp [updateUserUsage])
          (⟨0, by decide⟩ : Fin [c7User].length))).monthlyUsage :=
  updateUserUsage_monotone [c7User] "u1" 4 (by decide)
    (⟨0, by decide⟩ : Fin [c7User].length)

/-- Claim C9: saveAudioFile returns the generated audio id and inserts
the row with JavaScript-falsy optional fields coerced to null: a
fileSize of 0 is stored as null, and an empty-string voice is stored as
null. -/
theorem saveAudioFile_falsy_coercion (db : List AudioFile) (data : AudioData)
    (timestamp : Nat) (randomSuffix : String) (now : SqlDate) :
    (saveAudioFile db data timestamp randomSuffix now).1 =
      "audio_" ++ toString timestamp ++ "_" ++ randomSuffix ∧
    (saveAudioFile db data timestamp randomSuffix now).2 = db ++ [{
      id := "audio_" ++ toString timestamp ++ "_" ++ randomSuffix,
      userId := data.userId, filename := data.filename, text := data.text,
      voice := jsOrNullStr data.voice, settings := jsOrNullStr data.settings,
      audioUrl := jsOrNullStr data.audioUrl,
      fileSize := jsOrNullInt data.fileSize, createdAt := now }] ∧
    (data.fileSize = some 0 → jsOrNullInt data.fileSize = none) ∧
    (data.voice = some "" → jsOrNullStr data.voice = none) := by
  refine ⟨rfl, rfl, ?_, ?_⟩
  · intro h; simp [jsOrNullInt, h]
  · intro h; simp [jsOrNullStr, h]

/-- Claim C9 witness: with fileSize 0 and empty voice, both stored
fields are null and the id is the generated one. -/
theorem saveAudioFile_falsy_coercion_witness :
    (saveAudioFile [] c9Data 5 "abc" scratchDate).1 =
      "audio_" ++ toString 5 ++ "_" ++ "abc" ∧
    jsOrNullInt c9Data.fileSize = none ∧
    jsOrNullStr c9Data.voice = none :=
  ⟨(saveAudioFile_falsy_coercion [] c9Data 5 "abc" scratchDate).1,
   (saveAudioFile_falsy_coercion [] c9Data 5 "abc" scratchDate).2.2.1 rfl,
   (saveAudioFile_falsy_coercion [] c9Data 5 "abc" scratchDate).2.2.2 rfl⟩

/-- Helper: the JavaScript coercion `some m || 0` is the identity on
integers, since its only falsy value is already 0. -/
theorem jsOrIntDefault_some_zero (m : Int) : jsOrIntDefault (some m) 0 = m := by
  simp only [jsOrIntDefault]
  split
  · omega
  · rfl

/-- Claim C10: for an existing user, getUserDashboard reports
usage.remaining = tier limit − monthlyUsage with no clamping at zero;
when monthlyUsage exceeds the limit, remaining is negative. -/
theorem getUserDashboard_remaining (db : List User) (files : List AudioFile)
    (uid : String) (u : User)
    (h : getUserWithSubscription db uid = some u) :
    (getUserDashboard db files uid).usage.remaining =
      userLimitFor u.subscriptionStatus - u.monthlyUsage ∧
    (userLimitFor u.subscriptionStatus < u.monthlyUsage →
      (getUserDashboard db files uid).usage.remaining < 0) := by
  have hr : (getUserDashboard db files uid).usage.remaining =
      userLimitFor u.subscriptionStatus - u.monthlyUsage := by
    simp [getUserDashboard, h, userLimitFor, jsOrIntDefault_some_zero]
  refine ⟨hr, fun hlt => ?_⟩
  rw [hr]
  omega

/-- Claim C10 witness: a premium user at 600000 characters has
remaining = 500000 − 600000 = -100000 < 0. -/
theorem getUserDashboard_remaining_witness :
    (getUserDashboard [c10User] [] "u3").usage.remaining =
      userLimitFor "premium" - 600000 ∧
    (getUserDashboard [c10User] [] "u3").usage.remaining < 0 :=
  ⟨(getUserDashboard_remaining [c10User] [] "u3" c10User rfl).1,
   (getUserDashboard_remaining [c10User] [] "u3" c10User rfl).2 (by decide)⟩

end Prosodify
